import Mathlib

/-!
# Shallow embedding of the T-Radex trading-bot core

This file embeds the signal-generation and trade-approval pipeline of the
repository (src/strategies.py, src/risk_manager.py, src/bot.py) in Lean and
proves/refutes the frozen specification claims about it.

Embedding conventions:
* Python floats are modelled as rationals.
* A pandas OHLCV DataFrame is a list of candles; positional .iloc accesses
  -1, -2, ... become indices n-1, n-2, ....  Bare subscripts like
  resistance[-2] are NOT positional: on the frame's default RangeIndex they
  are label lookups and raise KeyError, modelled with Except below.
* Rolling indicator values that pandas leaves as NaN for the first
  window-1 rows are modelled as Option (none = NaN); every comparison
  against a NaN value is false, exactly as in numpy/pandas.
* talib BBANDS and RSI are external library calls; they are modelled as an
  opaque environment argument giving the (upper, middle, lower) band values
  and the RSI value at the last row, the only row the code reads.
* The helper _calculate_position_size is written inside MeanReversionStrategy
  in the source but is called by all three strategies (the spec describes it
  as a shared base-class helper); it is embedded once and used by all three.
* Mutating methods of RiskManager are embedded as state-passing functions;
  the orchestration loop records its calls to the dashboard collaborator and
  to update_pnl in explicit traces so that claims about which calls happen
  can be stated.
-/

/-- One OHLCV candle (one row of the DataFrame built in utils.get_ohlcv_data,
columns timestamp, open, high, low, close, volume). -/
structure Candle where
  timestamp : ℚ
  «open» : ℚ
  high : ℚ
  low : ℚ
  close : ℚ
  volume : ℚ
deriving DecidableEq, Repr

/-- The TradeSignal dataclass of src/strategies.py. -/
structure TradeSignal where
  symbol : String
  side : String
  amount : ℚ
  price : Option ℚ := none
  type : String := "limit"
  confidence : ℚ := 1
deriving DecidableEq, Repr

/-- A strategy configuration dict.  Each key the strategies read with
config.get(key, default) is an optional field; accessors below apply the
defaults exactly as the Python constructors do. -/
structure StrategyConfig where
  type? : Option String := none
  min_confidence? : Option ℚ := none
  bb_window? : Option ℕ := none
  bb_std? : Option ℚ := none
  rsi_window? : Option ℕ := none
  fast_ma? : Option ℕ := none
  slow_ma? : Option ℕ := none
  resistance_window? : Option ℕ := none
  confirmation_candles? : Option ℕ := none
  risk_per_trade? : Option ℚ := none
  account_size? : Option ℚ := none
deriving DecidableEq, Repr

/-- Strategy.__init__: self.min_confidence = config.get('min_confidence', 0.7). -/
def StrategyConfig.min_confidence (c : StrategyConfig) : ℚ := c.min_confidence?.getD (7/10)

/-- MeanReversionStrategy.__init__: config.get('bb_window', 20). -/
def StrategyConfig.bb_window (c : StrategyConfig) : ℕ := c.bb_window?.getD 20

/-- MeanReversionStrategy.__init__: config.get('bb_std', 2.0). -/
def StrategyConfig.bb_std (c : StrategyConfig) : ℚ := c.bb_std?.getD 2

/-- MeanReversionStrategy.__init__: config.get('rsi_window', 14). -/
def StrategyConfig.rsi_window (c : StrategyConfig) : ℕ := c.rsi_window?.getD 14

/-- MomentumStrategy.__init__: config.get('fast_ma', 9). -/
def StrategyConfig.fast_ma (c : StrategyConfig) : ℕ := c.fast_ma?.getD 9

/-- MomentumStrategy.__init__: config.get('slow_ma', 21). -/
def StrategyConfig.slow_ma (c : StrategyConfig) : ℕ := c.slow_ma?.getD 21

/-- BreakoutStrategy.__init__: config.get('resistance_window', 14). -/
def StrategyConfig.resistance_window (c : StrategyConfig) : ℕ := c.resistance_window?.getD 14

/-- BreakoutStrategy.__init__: config.get('confirmation_candles', 2). -/
def StrategyConfig.confirmation_candles (c : StrategyConfig) : ℕ := c.confirmation_candles?.getD 2

/-- _calculate_position_size: config.get('risk_per_trade', 0.01). -/
def StrategyConfig.risk_per_trade (c : StrategyConfig) : ℚ := c.risk_per_trade?.getD (1/100)

/-- _calculate_position_size: config.get('account_size', 10000). -/
def StrategyConfig.account_size (c : StrategyConfig) : ℚ := c.account_size?.getD 10000

/-- data['close'] as a list. -/
def closeList (data : List Candle) : List ℚ := data.map Candle.close

/-- data.iloc[-1]['close'] (the Python raises IndexError on an empty frame;
every use below is guarded by a length check, so the default 0 is never hit
on the Python-reachable paths). -/
def lastClose (data : List Candle) : ℚ := (closeList data).getD (data.length - 1) 0

/-- a > b on two optional (possibly-NaN) operands, as in
np.where(fast_ma > slow_ma, ...): false whenever either side is NaN. -/
def optGt : Option ℚ → Option ℚ → Bool
  | some a, some b => decide (b < a)
  | _, _ => false

/-- 0 < z on an optional integer (latest['crossover'] > 0; NaN > 0 is false). -/
def optIntPos : Option ℤ → Bool
  | some z => decide (0 < z)
  | none => false

/-- z < 0 on an optional integer (latest['crossover'] < 0; NaN < 0 is false). -/
def optIntNeg : Option ℤ → Bool
  | some z => decide (z < 0)
  | none => false

/-- ta.SMA(xs, timeperiod=p) at row i: the mean of xs[i-p+1..i], NaN (none)
until p samples exist.  (talib rejects p < 2 at call time; none also covers
that unreachable case.) -/
def SMA (p : ℕ) (xs : List ℚ) (i : ℕ) : Option ℚ :=
  if 1 ≤ p ∧ p ≤ i + 1 ∧ i < xs.length then
    some (((xs.drop (i + 1 - p)).take p).sum / (p : ℚ))
  else none

/-- The talib calls made by MeanReversionStrategy.analyze, modelled as an
opaque environment: BBANDS timeperiod nbdev closes = (upper, middle, lower)
at the last row, RSI timeperiod closes = the RSI value at the last row.
talib is an external library, so the claims quantify over this environment. -/
structure TalibEnv where
  BBANDS : ℕ → ℚ → List ℚ → ℚ × ℚ × ℚ
  RSI : ℕ → List ℚ → ℚ

/-- Strategy._validate_signal: signal.confidence >= self.min_confidence. -/
def Strategy.validate_signal (cfg : StrategyConfig) (signal : TradeSignal) : Bool :=
  decide (cfg.min_confidence ≤ signal.confidence)

/-- MeanReversionStrategy._calculate_position_size (called by all three
strategies; the spec describes it as a shared base-class helper):
(account_size * risk_per_trade) / price. -/
def Strategy.calculate_position_size (cfg : StrategyConfig) (price : ℚ) : ℚ :=
  cfg.account_size * cfg.risk_per_trade / price

/-- The signals list MeanReversionStrategy.analyze builds before the final
confidence-floor comprehension.  Buy branch first; the sell branch is an
elif, evaluated only when the buy condition is false. -/
def MeanReversionStrategy.rawSignals (env : TalibEnv) (cfg : StrategyConfig)
    (symbol : String) (data : List Candle) : List TradeSignal :=
  if lastClose data ≤ (env.BBANDS cfg.bb_window cfg.bb_std (closeList data)).2.2 ∧
      env.RSI cfg.rsi_window (closeList data) < 30 then
    [{ symbol := symbol, side := "buy",
       amount := Strategy.calculate_position_size cfg (lastClose data),
       price := some (lastClose data * (1002/1000)),
       confidence := min 1 ((30 - env.RSI cfg.rsi_window (closeList data)) / 30) }]
  else if (env.BBANDS cfg.bb_window cfg.bb_std (closeList data)).1 ≤ lastClose data ∧
      70 < env.RSI cfg.rsi_window (closeList data) then
    [{ symbol := symbol, side := "sell",
       amount := Strategy.calculate_position_size cfg (lastClose data),
       price := some (lastClose data * (998/1000)),
       confidence := min 1 ((env.RSI cfg.rsi_window (closeList data) - 70) / 30) }]
  else []

/-- MeanReversionStrategy.analyze: short-series guard, indicator computation,
branch on the last row, then the comprehension
[s for s in signals if self._validate_signal(s)]. -/
def MeanReversionStrategy.analyze (env : TalibEnv) (cfg : StrategyConfig)
    (symbol : String) (data : List Candle) : List TradeSignal :=
  if data.length < max cfg.bb_window cfg.rsi_window * 2 then []
  else (MeanReversionStrategy.rawSignals env cfg symbol data).filter
    (fun s => Strategy.validate_signal cfg s)

/-- data['position'] at row i: np.where(fast_ma > slow_ma, 1, -1); a NaN
moving average compares false, giving -1. -/
def momPosition (fast slow : ℕ) (xs : List ℚ) (i : ℕ) : ℤ :=
  if optGt (SMA fast xs i) (SMA slow xs i) then 1 else -1

/-- data['crossover'] at row i: data['position'].diff(), NaN (none) at row 0. -/
def momCrossover (fast slow : ℕ) (xs : List ℚ) (i : ℕ) : Option ℤ :=
  if i = 0 then none
  else some (momPosition fast slow xs i - momPosition fast slow xs (i - 1))

/-- MomentumStrategy.analyze: short-series guard (len(data) < slow_ma * 2),
then branch on latest['crossover'].  NOTE: unlike MeanReversionStrategy, the
returned list is NOT filtered through _validate_signal — the source returns
`signals` directly. -/
def MomentumStrategy.analyze (cfg : StrategyConfig) (symbol : String)
    (data : List Candle) : List TradeSignal :=
  if data.length < cfg.slow_ma * 2 then []
  else if optIntPos (momCrossover cfg.fast_ma cfg.slow_ma (closeList data) (data.length - 1)) then
    [{ symbol := symbol, side := "buy",
       amount := Strategy.calculate_position_size cfg (lastClose data),
       type := "market", confidence := 8/10 }]
  else if optIntNeg (momCrossover cfg.fast_ma cfg.slow_ma (closeList data) (data.length - 1)) then
    [{ symbol := symbol, side := "sell",
       amount := Strategy.calculate_position_size cfg (lastClose data),
       type := "market", confidence := 8/10 }]
  else []

/-- BreakoutStrategy.analyze.  Below the short-series guard the source
computes resistance = data['high'].rolling(w).max() (and the support
analogue) and then evaluates `latest['close'] > resistance[-2]`.  That
Series carries the frame's default RangeIndex (utils.get_ohlcv_data /
ExchangeInterface.get_ohlcv build the frame without setting an index), and
on an integer index `resistance[-2]` is a LABEL lookup — only .iloc is
positional, as the method's own confirmation loop uses — so pandas raises
KeyError(-2) before either branch can run.  Every series passing the guard
therefore makes the method throw instead of producing or withholding a
signal; the method is modelled as Except: ok [] on the guard path, the
KeyError on every other path. -/
def BreakoutStrategy.analyze (cfg : StrategyConfig) (_symbol : String)
    (data : List Candle) : Except String (List TradeSignal) :=
  if data.length < cfg.resistance_window * 2 then Except.ok []
  else Except.error "KeyError: -2"

/-- The closed set of strategy kinds StrategyFactory.create can build. -/
inductive Strategy where
  | meanReversion (cfg : StrategyConfig)
  | momentum (cfg : StrategyConfig)
  | breakout (cfg : StrategyConfig)
deriving DecidableEq, Repr

/-- StrategyFactory.create: config.get('type', 'mean_reversion'), dispatch on
the kind string, raise ValueError (modelled as Except.error with the exact
message) on an unknown kind. -/
def StrategyFactory.create (cfg : StrategyConfig) : Except String Strategy :=
  if cfg.type?.getD "mean_reversion" = "mean_reversion" then
    Except.ok (Strategy.meanReversion cfg)
  else if cfg.type?.getD "mean_reversion" = "momentum" then
    Except.ok (Strategy.momentum cfg)
  else if cfg.type?.getD "mean_reversion" = "breakout" then
    Except.ok (Strategy.breakout cfg)
  else Except.error ("Unknown strategy type: " ++ cfg.type?.getD "mean_reversion")

/-- The mutable state of src/risk_manager.py's RiskManager: daily_pnl starts
at 0, max_daily_loss comes from config['trading']['max_daily_loss']. -/
structure RiskManager where
  daily_pnl : ℚ
  max_daily_loss : ℚ
deriving DecidableEq, Repr

/-- RiskManager.__init__ with the given configured max_daily_loss. -/
def RiskManager.init (max_daily_loss : ℚ) : RiskManager :=
  { daily_pnl := 0, max_daily_loss := max_daily_loss }

/-- RiskManager.approve_trade: returns False when daily_pnl < -max_daily_loss,
True otherwise; the method only reads self, so the state component of the
result is the input state. -/
def RiskManager.approve_trade (s : RiskManager) (_signal : TradeSignal) :
    Bool × RiskManager :=
  (if s.daily_pnl < -s.max_daily_loss then false else true, s)

/-- RiskManager.update_pnl: self.daily_pnl += amount. -/
def RiskManager.update_pnl (s : RiskManager) (amount : ℚ) : RiskManager :=
  { s with daily_pnl := s.daily_pnl + amount }

/-- RiskManager.reset_daily_pnl: self.daily_pnl = 0. -/
def RiskManager.reset_daily_pnl (s : RiskManager) : RiskManager :=
  { s with daily_pnl := 0 }

/-- The order dict returned by the execution collaborator
(ExchangeInterface.execute_order): only the fields the loop reads are kept;
pnl = none models a dict without a 'pnl' key, so order.get('pnl', 0) is
pnl.getD 0. -/
structure OrderResult where
  status : String
  pnl : Option ℚ := none
deriving DecidableEq, Repr

/-- The state the orchestration loop threads: the risk manager plus explicit
traces of the calls it makes to dashboard.record_trade and to
risk.update_pnl (so that claims about which calls happen are statable). -/
structure BotState where
  risk : RiskManager
  records : List OrderResult
  pnlCalls : List ℚ
deriving DecidableEq, Repr

/-- TradingBot._execute_trades: for each signal, if risk.approve_trade(signal)
then order = exchange.execute_order(signal); dashboard.record_trade(order);
risk.update_pnl(order.get('pnl', 0)) — unconditionally, with no status
check.  The execution collaborator is the function argument execOrder. -/
def TradingBot.executeTrades (execOrder : TradeSignal → OrderResult)
    (st : BotState) (signals : List TradeSignal) : BotState :=
  signals.foldl (fun st signal =>
    if (st.risk.approve_trade signal).1 then
      { risk := st.risk.update_pnl ((execOrder signal).pnl.getD 0),
        records := st.records ++ [execOrder signal],
        pnlCalls := st.pnlCalls ++ [(execOrder signal).pnl.getD 0] }
    else st) st

/-! ## Concrete values used by witnesses and counterexamples -/

unseal Rat.add Rat.sub Rat.mul Rat.inv Rat.ofScientific

/-- A concrete signal used to instantiate signal-universal statements. -/
def sigBuy : TradeSignal :=
  { symbol := "BTC/USDT", side := "buy", amount := 1 }

/-- A second concrete signal, differing from sigBuy in every varying field. -/
def sigSell : TradeSignal :=
  { symbol := "ETH/USDT", side := "sell", amount := 3, price := some 250,
    type := "market", confidence := 1/2 }

/-- An execution collaborator whose every order comes back rejected and
without a pnl field. -/
def rejectedOrderExec : TradeSignal → OrderResult :=
  fun _ => { status := "rejected" }

/-- A fresh orchestration-loop state with max_daily_loss = 100. -/
def st0 : BotState :=
  { risk := RiskManager.init 100, records := [], pnlCalls := [] }

/-! ## Claims about the Risk Gate, the factory and the orchestration loop -/

/-- Claim C2: after update_pnl(-max_daily_loss - 1) brings running_pnl below
-max_daily_loss, approve_trade returns false for every signal (and leaves the
state unchanged, so every subsequent call answers false as well); after an
explicit reset_daily_pnl the gate approves again (max_daily_loss is
configured non-negative per the data model). -/
theorem risk_gate_halts_until_reset (s : RiskManager) (sig1 sig2 : TradeSignal)
    (hbreach : s.daily_pnl + (-s.max_daily_loss - 1) < -s.max_daily_loss)
    (hm : 0 ≤ s.max_daily_loss) :
    ((s.update_pnl (-s.max_daily_loss - 1)).approve_trade sig1).1 = false ∧
    ((s.update_pnl (-s.max_daily_loss - 1)).approve_trade sig1).2 =
      s.update_pnl (-s.max_daily_loss - 1) ∧
    (((s.update_pnl (-s.max_daily_loss - 1)).reset_daily_pnl).approve_trade sig2).1 = true := by
  refine ⟨?_, rfl, ?_⟩
  · simp only [RiskManager.update_pnl, RiskManager.approve_trade]
    rw [if_pos hbreach]
  · simp only [RiskManager.update_pnl, RiskManager.reset_daily_pnl,
      RiskManager.approve_trade]
    rw [if_neg]
    intro h
    exact absurd hm (not_le.mpr (by linarith))

/-- Witness for C2 at a fresh gate with max_daily_loss = 100. -/
theorem risk_gate_halts_until_reset_witness :
    ((RiskManager.init 100).daily_pnl + (-(RiskManager.init 100).max_daily_loss - 1) <
      -(RiskManager.init 100).max_daily_loss) ∧
    (0 ≤ (RiskManager.init 100).max_daily_loss) ∧
    ((((RiskManager.init 100).update_pnl (-(RiskManager.init 100).max_daily_loss - 1)).approve_trade sigBuy).1 = false ∧
     (((RiskManager.init 100).update_pnl (-(RiskManager.init 100).max_daily_loss - 1)).approve_trade sigBuy).2 =
       (RiskManager.init 100).update_pnl (-(RiskManager.init 100).max_daily_loss - 1) ∧
     ((((RiskManager.init 100).update_pnl (-(RiskManager.init 100).max_daily_loss - 1)).reset_daily_pnl).approve_trade sigSell).1 = true) :=
  ⟨by decide, by decide,
    risk_gate_halts_until_reset (RiskManager.init 100) sigBuy sigSell (by decide) (by decide)⟩

/-- Claim C9 counterexample: reset_daily_pnl is an operation other than
update_pnl that mutates running_pnl, so update_pnl is not the only mutator:
from daily_pnl = 5 a reset changes running_pnl (to 0). -/
theorem reset_mutates_running_pnl :
    (RiskManager.reset_daily_pnl { daily_pnl := 5, max_daily_loss := 100 }).daily_pnl ≠
      ({ daily_pnl := 5, max_daily_loss := 100 } : RiskManager).daily_pnl := by
  decide

/-- Claim C9 (amended): approve_trade is a pure read returning the state
unchanged; update_pnl adds exactly the given delta and touches nothing else;
running_pnl is mutated only by update_pnl and reset_daily_pnl (which sets it
to 0 and touches nothing else). -/
theorem risk_ops_frame (s : RiskManager) (sig : TradeSignal) (a : ℚ) :
    (s.approve_trade sig).2 = s ∧
    (s.update_pnl a).daily_pnl = s.daily_pnl + a ∧
    (s.update_pnl a).max_daily_loss = s.max_daily_loss ∧
    (s.reset_daily_pnl).daily_pnl = 0 ∧
    (s.reset_daily_pnl).max_daily_loss = s.max_daily_loss :=
  ⟨rfl, rfl, rfl, rfl, rfl⟩

/-- Claim C10: approve_trade never reads its signal argument — any two
signals get the same answer in the same state — and the answer is true
exactly when running_pnl is not below -max_daily_loss (so in the
Trading-Enabled state every signal is approved, with no per-signal check). -/
theorem approve_trade_ignores_signal (s : RiskManager) (sig1 sig2 : TradeSignal) :
    (s.approve_trade sig1).1 = (s.approve_trade sig2).1 ∧
    ((s.approve_trade sig1).1 = true ↔ -s.max_daily_loss ≤ s.daily_pnl) := by
  constructor
  · rfl
  · simp only [RiskManager.approve_trade]
    by_cases h : s.daily_pnl < -s.max_daily_loss
    · rw [if_pos h]
      simp [not_le.mpr h]
    · rw [if_neg h]
      simp [not_lt.mp h]

/-- Claim C8: a configuration that declares a strategy kind outside
{mean_reversion, momentum, breakout} makes StrategyFactory.create fail with
the explicit ValueError message, never a silent default strategy. -/
theorem create_unknown_kind_fails (cfg : StrategyConfig) (t : String)
    (hdecl : cfg.type? = some t)
    (h1 : t ≠ "mean_reversion") (h2 : t ≠ "momentum") (h3 : t ≠ "breakout") :
    StrategyFactory.create cfg = Except.error ("Unknown strategy type: " ++ t) := by
  simp only [StrategyFactory.create, hdecl, Option.getD_some]
  rw [if_neg h1, if_neg h2, if_neg h3]

/-- Witness for C8: the unknown kind "grid_trading". -/
theorem create_unknown_kind_fails_witness :
    ({ type? := some "grid_trading" } : StrategyConfig).type? = some "grid_trading" ∧
    ("grid_trading" ≠ "mean_reversion" ∧ "grid_trading" ≠ "momentum" ∧
      "grid_trading" ≠ "breakout") ∧
    StrategyFactory.create { type? := some "grid_trading" } =
      Except.error ("Unknown strategy type: " ++ "grid_trading") :=
  ⟨rfl, ⟨by decide, by decide, by decide⟩,
    create_unknown_kind_fails { type? := some "grid_trading" } "grid_trading" rfl
      (by decide) (by decide) (by decide)⟩

/-- Claim C4 counterexample: the loop does NOT skip the trade-record call or
the update_pnl call on a non-success order — with an executor returning a
rejected order without a pnl field, one approved signal still appends the
order to the dashboard-record trace and makes an update_pnl call. -/
theorem executeTrades_records_failed_order :
    (rejectedOrderExec sigBuy).status ≠ "filled" ∧
    (TradingBot.executeTrades rejectedOrderExec st0 [sigBuy]).records ≠ st0.records ∧
    (TradingBot.executeTrades rejectedOrderExec st0 [sigBuy]).pnlCalls ≠ st0.pnlCalls := by
  decide

/-- Claim C4 (amended): for every approved signal the loop unconditionally
records the executed order and calls update_pnl with the order's pnl field
defaulted to 0, regardless of order status; an order without a pnl field
therefore leaves running_pnl unchanged (0 delta), and processing always
continues with the remaining signals. -/
theorem executeTrades_unconditional_record (execOrder : TradeSignal → OrderResult)
    (st : BotState) (sig : TradeSignal) (rest : List TradeSignal)
    (h : (st.risk.approve_trade sig).1 = true) :
    (TradingBot.executeTrades execOrder st [sig]).records =
      st.records ++ [execOrder sig] ∧
    (TradingBot.executeTrades execOrder st [sig]).pnlCalls =
      st.pnlCalls ++ [(execOrder sig).pnl.getD 0] ∧
    ((execOrder sig).pnl = none →
      (TradingBot.executeTrades execOrder st [sig]).risk.daily_pnl = st.risk.daily_pnl) ∧
    TradingBot.executeTrades execOrder st (sig :: rest) =
      TradingBot.executeTrades execOrder (TradingBot.executeTrades execOrder st [sig]) rest := by
  refine ⟨?_, ?_, ?_, rfl⟩
  · simp [TradingBot.executeTrades, h]
  · simp [TradingBot.executeTrades, h]
  · intro hp
    simp [TradingBot.executeTrades, h, hp, RiskManager.update_pnl]

/-- Witness for C4 (amended) at the rejected-order executor and a fresh
state, whose signal is approved. -/
theorem executeTrades_unconditional_record_witness :
    ((st0.risk.approve_trade sigBuy).1 = true) ∧
    ((TradingBot.executeTrades rejectedOrderExec st0 [sigBuy]).records =
       st0.records ++ [rejectedOrderExec sigBuy] ∧
     (TradingBot.executeTrades rejectedOrderExec st0 [sigBuy]).pnlCalls =
       st0.pnlCalls ++ [(rejectedOrderExec sigBuy).pnl.getD 0] ∧
     ((rejectedOrderExec sigBuy).pnl = none →
       (TradingBot.executeTrades rejectedOrderExec st0 [sigBuy]).risk.daily_pnl =
         st0.risk.daily_pnl) ∧
     TradingBot.executeTrades rejectedOrderExec st0 (sigBuy :: [sigSell]) =
       TradingBot.executeTrades rejectedOrderExec
         (TradingBot.executeTrades rejectedOrderExec st0 [sigBuy]) [sigSell]) :=
  ⟨by decide,
    executeTrades_unconditional_record rejectedOrderExec st0 sigBuy [sigSell] (by decide)⟩

/-- A flat candle with the given close (= open = high = low) and volume. -/
def candleC (c v : ℚ) : Candle :=
  { timestamp := 0, «open» := c, high := c, low := c, close := c, volume := v }

/-- Claim C5 (amended): whenever the last close is at or below the lower
band and the oscillator is below 30, and the resulting confidence
min(1, (30-osc)/30) clears the configured floor, Mean-Reversion returns
exactly the buy signal with price = close * 1.002 and amount =
account_size * risk_per_trade / close; the sell branch is never consulted
(on a simultaneous match buy wins, with no hypothesis here excluding the
sell condition). -/
theorem meanrev_buy_branch (env : TalibEnv) (cfg : StrategyConfig) (sym : String)
    (data : List Candle)
    (hlen : max cfg.bb_window cfg.rsi_window * 2 ≤ data.length)
    (hlow : lastClose data ≤ (env.BBANDS cfg.bb_window cfg.bb_std (closeList data)).2.2)
    (hosc : env.RSI cfg.rsi_window (closeList data) < 30)
    (hfloor : cfg.min_confidence ≤
      min 1 ((30 - env.RSI cfg.rsi_window (closeList data)) / 30)) :
    MeanReversionStrategy.analyze env cfg sym data =
      [{ symbol := sym, side := "buy",
         amount := Strategy.calculate_position_size cfg (lastClose data),
         price := some (lastClose data * (1002/1000)),
         type := "limit",
         confidence := min 1 ((30 - env.RSI cfg.rsi_window (closeList data)) / 30) }] := by
  rw [MeanReversionStrategy.analyze, if_neg (not_lt.mpr hlen),
    MeanReversionStrategy.rawSignals, if_pos ⟨hlow, hosc⟩]
  simp [List.filter, Strategy.validate_signal, hfloor]

/-- An indicator environment whose lower, middle and upper bands all sit
exactly at the last close and whose RSI is the constant 20 — the claim's
"close touches the lower band, oscillator = 20" scenario. -/
def envTouch : TalibEnv :=
  { BBANDS := fun _ _ closes =>
      (closes.getLast?.getD 0, closes.getLast?.getD 0, closes.getLast?.getD 0),
    RSI := fun _ _ => 20 }

/-- Forty flat candles at close 100. -/
def data40 : List Candle := List.replicate 40 (candleC 100 1)

/-- Claim C5 counterexample: under the default configuration
(min_confidence = 0.7) a series whose last close equals the lower band with
oscillator = 20 yields NO signal — the 1/3-confidence buy is dropped by the
confidence floor, so the claim as stated fails on the code. -/
theorem meanrev_drops_low_confidence_buy :
    (lastClose data40 =
       (envTouch.BBANDS (({} : StrategyConfig)).bb_window
         (({} : StrategyConfig)).bb_std (closeList data40)).2.2 ∧
     envTouch.RSI (({} : StrategyConfig)).rsi_window (closeList data40) = 20 ∧
     max (({} : StrategyConfig)).bb_window (({} : StrategyConfig)).rsi_window * 2 ≤
       data40.length) ∧
    MeanReversionStrategy.analyze envTouch {} "BTC/USDT" data40 = [] := by
  decide

/-- A Mean-Reversion config whose floor 1/4 is below the 1/3 confidence of
the oscillator-20 buy. -/
def cfgLowFloor : StrategyConfig := { min_confidence? := some (1/4) }

/-- Witness for C5 (amended): the oscillator-20 touch scenario with a floor
of 1/4 produces the buy, and its confidence evaluates to exactly 1/3. -/
theorem meanrev_buy_branch_witness :
    (max cfgLowFloor.bb_window cfgLowFloor.rsi_window * 2 ≤ data40.length ∧
     lastClose data40 ≤
       (envTouch.BBANDS cfgLowFloor.bb_window cfgLowFloor.bb_std (closeList data40)).2.2 ∧
     envTouch.RSI cfgLowFloor.rsi_window (closeList data40) < 30 ∧
     cfgLowFloor.min_confidence ≤
       min 1 ((30 - envTouch.RSI cfgLowFloor.rsi_window (closeList data40)) / 30) ∧
     min 1 ((30 - envTouch.RSI cfgLowFloor.rsi_window (closeList data40)) / 30) = 1/3) ∧
    MeanReversionStrategy.analyze envTouch cfgLowFloor "BTC/USDT" data40 =
      [{ symbol := "BTC/USDT", side := "buy",
         amount := Strategy.calculate_position_size cfgLowFloor (lastClose data40),
         price := some (lastClose data40 * (1002/1000)),
         type := "limit",
         confidence := min 1 ((30 - envTouch.RSI cfgLowFloor.rsi_window (closeList data40)) / 30) }] :=
  ⟨⟨by decide, by decide, by decide, by decide, by decide⟩,
    meanrev_buy_branch envTouch cfgLowFloor "BTC/USDT" data40
      (by decide) (by decide) (by decide) (by decide)⟩

/-- A Breakout config with resistance_window = 2 and confirmation_candles = 2. -/
def cfg6 : StrategyConfig :=
  { resistance_window? := some 2, confirmation_candles? := some 2 }

/-- Four candles with flat highs at 10 and the last two closes (11, 12)
breaking above the rolling resistance, on a volume spike. -/
def dataBreak : List Candle :=
  [{ timestamp := 0, «open» := 5, high := 10, low := 1, close := 5, volume := 1 },
   { timestamp := 1, «open» := 5, high := 10, low := 1, close := 5, volume := 1 },
   { timestamp := 2, «open» := 5, high := 10, low := 1, close := 11, volume := 1 },
   { timestamp := 3, «open» := 5, high := 10, low := 1, close := 12, volume := 5 }]


/-- Claim C6 (the code crashes instead): dataBreak satisfies every condition
of the claim — last close 12 above the previous-candle rolling resistance
10, volume 5 above the mean 2, and both confirming closes (11, 12) above
the resistance aligned to their index — yet the source never produces the
claimed buy at 10 * 1.005: `resistance[-2]` is a label lookup on the
Series' RangeIndex, so BreakoutStrategy.analyze raises KeyError there for
this (and every other) series passing the length guard. -/
theorem breakout_throws_on_breakout_series :
    cfg6.resistance_window * 2 ≤ dataBreak.length ∧
    BreakoutStrategy.analyze cfg6 "BTC/USDT" dataBreak =
      Except.error "KeyError: -2" :=
  ⟨by decide, rfl⟩
